import Mathlib

/-!
Verification of the interactive CSV session utility (`script.py`).

The program keeps one pandas DataFrame and runs a menu loop over it.  We
embed the DataFrame shallowly as a `Table`: an ordered list of column names
together with rows of cells, a cell being `Option String` (`none` is the
missing marker NaN; any loaded or typed value is kept in its textual form,
so numeric formatting is abstracted away).  Dialog answers
(`simpledialog.askstring`) are `Option String`: `none` models pressing
Cancel.  User-visible notifications and log lines are modelled as
`LogEntry` values returned alongside the table where a claim depends on
them; purely display-side effects (printing a summary, showing a chart)
carry no observable data content and are modelled as the identity on the
table, which is exactly what the source functions do to the DataFrame.
-/

namespace CsFile

/-- A cell of the table: `none` is the reserved missing marker (NaN). -/
abbrev Cell := Option String

/-- The in-memory table: ordered named columns and ordered rows. -/
structure Table where
  cols : List String
  rows : List (List Cell)
deriving DecidableEq, Repr

/-- A user-visible outcome line: a log entry or a dialog notification. -/
inductive LogEntry where
  | info (msg : String)
  | warning (msg : String)
  | error (msg : String)
deriving DecidableEq, Repr

/-- Whether a log entry is a warning. -/
def LogEntry.isWarning : LogEntry → Bool
  | .warning _ => true
  | _ => false

/-- The default missing-value tokens recognised by the reader
(`pd.read_csv` default `na_values`): any field equal to one of these is
read back as the missing marker. -/
def naValues : List String :=
  ["", "#N/A", "#N/A N/A", "#NA", "-1.#IND", "-1.#QNAN", "-NaN", "-nan",
   "1.#IND", "1.#QNAN", "<NA>", "N/A", "NA", "NULL", "NaN", "None",
   "n/a", "nan", "null"]

/-- `save_csv` body, `df.to_csv(file_path, index=False)`: the written file
as a list of records, a header row followed by one record per row, the
missing marker written as the empty field. -/
def save_csv (t : Table) : List (List String) :=
  t.cols :: t.rows.map (fun r => r.map (fun c => c.getD ""))

/-- `load_csv` body, `pd.read_csv(file_path)`: the first record is the
header, every later record a row, fields matching a default
missing-value token becoming the missing marker.  An empty file raises in
the source and the exception handler returns `None`; here `none`. -/
def load_csv : List (List String) → Option Table
  | [] => none
  | header :: body =>
      some ⟨header, body.map (fun r =>
        r.map (fun s => if s ∈ naValues then none else some s))⟩

/-- `load_csv` including the file dialog: `none` models the dialog
returning no path (`if file_path:` false), in which case the source
returns `None` without reading anything. -/
def load_csv_dialog : Option (List (List String)) → Option Table
  | none => none
  | some recs => load_csv recs

/-- `df.dropna(inplace=True)`: keep exactly the rows with no missing
marker. -/
def dropna (t : Table) : Table :=
  { t with rows := t.rows.filter (fun r => r.all Option.isSome) }

/-- `df.fillna(fill_value, inplace=True)`: replace every missing marker
with the literal `v`, leaving all other cells as they are. -/
def fillna (t : Table) (v : String) : Table :=
  { t with rows := t.rows.map (fun r => r.map (fun c => some (c.getD v))) }

/-- `handle_missing_data`: dispatch on the action token.  `drop` drops
rows with missing markers; `fill` asks for a literal and fills —
cancelling that dialog makes `fillna(None)` raise in pandas, the handler
catches it and the table is unchanged; `cancel` only logs; anything else
(including cancelling the action dialog) logs a warning.  Returns the
resulting table and the outcome lines. -/
def handle_missing_data (t : Table) (action : Option String)
    (fillValue : Option String) : Table × List LogEntry :=
  if action = some "drop" then
    (dropna t, [LogEntry.info "Missing data rows dropped."])
  else if action = some "fill" then
    match fillValue with
    | some v => (fillna t v, [LogEntry.info ("Missing data filled with " ++ v ++ ".")])
    | none => (t, [LogEntry.error "Error filling missing data"])
  else if action = some "cancel" then
    (t, [LogEntry.info "Missing data handling canceled."])
  else
    (t, [LogEntry.warning "Invalid input for missing data handling."])

/-- `filter_data`: ask for a column; if it is not among the columns
(cancelling yields `None`, also not a column) report the error and return
the table unchanged.  Otherwise ask for a value and keep exactly the rows
whose cell in that column equals it — `df[df[column] == value]` compares
the string answer cell-wise, a missing cell never equals it, and a
cancelled value dialog (`None`) matches no cell. -/
def filter_data (t : Table) (column : Option String) (value : Option String) :
    Table × List LogEntry :=
  match column with
  | none => (t, [LogEntry.error "Column not found."])
  | some c =>
      if c ∈ t.cols then
        let i := t.cols.indexOf c
        ({ t with rows := t.rows.filter (fun r =>
             value.elim false (fun v => r.getD i none == some v)) },
         [LogEntry.info ("Data filtered on " ++ c ++ " = " ++
           value.getD "None" ++ ".")])
      else
        (t, [LogEntry.error "Column not found."])

/-- `plot_simple`: `df.plot(); plt.show()` reads the DataFrame and shows a
chart; the table itself is untouched. -/
def plot_simple (t : Table) : Table := t

/-- `plot_pairplot`: `sns.pairplot(df)` reads the DataFrame only. -/
def plot_pairplot (t : Table) : Table := t

/-- `plot_histogram`: `df.hist(bins=20, ...)` reads the DataFrame only. -/
def plot_histogram (t : Table) : Table := t

/-- `plot_heatmap`: `df.corr()` builds a fresh matrix; the table is
untouched. -/
def plot_heatmap (t : Table) : Table := t

/-- `user_plot_selection`: the nested plot loop, consuming one chart-kind
token per iteration until `exit`; an unrecognised kind warns and
re-prompts.  The list argument is the stream of answers to the nested
prompt. -/
def user_plot_selection (t : Table) : List (Option String) → Table
  | [] => t
  | k :: rest =>
      if k = some "simple" then user_plot_selection (plot_simple t) rest
      else if k = some "pairplot" then user_plot_selection (plot_pairplot t) rest
      else if k = some "histogram" then user_plot_selection (plot_histogram t) rest
      else if k = some "heatmap" then user_plot_selection (plot_heatmap t) rest
      else if k = some "exit" then t
      else user_plot_selection t rest

/-- The dialog answers consumed by one iteration of the outer loop: the
action token and the answers the chosen handler would ask for. -/
structure StepIn where
  action : Option String
  missSub : Option String
  fillVal : Option String
  filterCol : Option String
  filterVal : Option String
  plotKinds : List (Option String)
deriving DecidableEq, Repr

/-- One iteration of the outer action loop of `main`: returns the table
after the iteration, whether the loop breaks (`exit`), and the outcome
lines this dispatch produces.  `info` and `summary` only display; `save`
writes the current table out and never changes it; `plot` runs the
nested loop, whose return value the source discards, so the session table
is unchanged. -/
def mainStep (t : Table) (s : StepIn) : Table × Bool × List LogEntry :=
  if s.action = some "info" then
    (t, false, [LogEntry.info "Displayed DataFrame information."])
  else if s.action = some "summary" then
    (t, false, [LogEntry.info "Displayed statistical summary."])
  else if s.action = some "missing" then
    ((handle_missing_data t s.missSub s.fillVal).1, false,
     (handle_missing_data t s.missSub s.fillVal).2)
  else if s.action = some "filter" then
    ((filter_data t s.filterCol s.filterVal).1, false,
     (filter_data t s.filterCol s.filterVal).2)
  else if s.action = some "save" then (t, false, [])
  else if s.action = some "plot" then (t, false, [])
  else if s.action = some "exit" then (t, true, [])
  else (t, false, [LogEntry.warning "Please enter a valid action."])

/-- The outer `while True` loop, fed the stream of per-iteration answers;
returns the final table and the number of loop-body iterations run. -/
def runLoop : Table → List StepIn → Table × Nat
  | t, [] => (t, 0)
  | t, s :: rest =>
      let r := mainStep t s
      if r.2.1 then (r.1, 1)
      else ((runLoop r.1 rest).1, (runLoop r.1 rest).2 + 1)

/-- `main`: load via the file dialog; if no table results the loop body is
never entered; otherwise run the session loop.  Returns the final table
(`none` when no table was ever available) and the number of loop
iterations. -/
def main (choice : Option (List (List String))) (inputs : List StepIn) :
    Option Table × Nat :=
  match load_csv_dialog choice with
  | none => (none, 0)
  | some t => ((runLoop t inputs).1, (runLoop t inputs).2)

/-- A cell survives a save/load round trip verbatim iff it is missing or
its value is none of the reader's missing-value tokens. -/
def cellSafe : Cell → Bool
  | none => true
  | some s => decide (s ∉ naValues)

/-! ## Theorems -/

/-- C2: the fill branch of the missing-data operation keeps the column
list, the row count and every row length, and rewrites each cell by
replacing the missing marker with the supplied literal — which leaves
every non-missing cell unchanged, since `(some x).getD v = x`. -/
theorem fill_replaces_missing_preserves_shape (t : Table) (v : String) :
    (handle_missing_data t (some "fill") (some v)).1.cols = t.cols ∧
    (handle_missing_data t (some "fill") (some v)).1.rows.length = t.rows.length ∧
    (handle_missing_data t (some "fill") (some v)).1.rows.map List.length
      = t.rows.map List.length ∧
    (handle_missing_data t (some "fill") (some v)).1.rows
      = t.rows.map (fun r => r.map (fun c => some (c.getD v))) := by
  have hred : handle_missing_data t (some "fill") (some v)
      = (fillna t v,
         [LogEntry.info ("Missing data filled with " ++ v ++ ".")]) := rfl
  rw [hred]
  refine ⟨rfl, ?_, ?_, rfl⟩
  · simp [fillna]
  · simp [fillna, List.map_map, Function.comp]

/-- C3: the drop branch of the missing-data operation keeps exactly the
rows that contain no missing marker: the result is the filter of the
original rows by that predicate, its row count is at most the original,
and no missing marker remains. -/
theorem drop_removes_missing_rows (t : Table) (fv : Option String) :
    (handle_missing_data t (some "drop") fv).1.cols = t.cols ∧
    (handle_missing_data t (some "drop") fv).1.rows
      = t.rows.filter (fun r => r.all Option.isSome) ∧
    (handle_missing_data t (some "drop") fv).1.rows.length ≤ t.rows.length ∧
    (handle_missing_data t (some "drop") fv).1.rows.all
      (fun r => r.all Option.isSome) = true := by
  have hred : handle_missing_data t (some "drop") fv
      = (dropna t, [LogEntry.info "Missing data rows dropped."]) := rfl
  rw [hred]
  refine ⟨rfl, rfl, ?_, ?_⟩
  · exact List.length_filter_le _ _
  · simp only [dropna, List.all_eq_true, List.mem_filter]
    exact fun r hr => hr.2

/-- C4: neither the filter operation nor any branch of the missing-data
operation changes the column list; only rows or cell values change. -/
theorem filter_and_missing_preserve_columns (t : Table)
    (a fv col val : Option String) :
    (handle_missing_data t a fv).1.cols = t.cols ∧
    (filter_data t col val).1.cols = t.cols := by
  constructor
  · unfold handle_missing_data
    split_ifs <;> first | rfl | (cases fv <;> rfl)
  · cases col with
    | none => rfl
    | some c =>
        dsimp only [filter_data]
        split_ifs <;> rfl

/-- C1: filtering on an existing column keeps the column list and exactly
the rows whose cell in that column equals the supplied value as a string
(a missing cell never matches), reporting the filter; filtering on a
non-existent column reports an error and returns the table unchanged. -/
theorem filter_exact_match_or_error (t : Table) (c v : String) :
    (c ∈ t.cols →
      filter_data t (some c) (some v)
        = ({ cols := t.cols,
             rows := t.rows.filter (fun r =>
               r.getD (t.cols.indexOf c) none == some v) },
           [LogEntry.info ("Data filtered on " ++ c ++ " = " ++ v ++ ".")])) ∧
    (c ∉ t.cols →
      filter_data t (some c) (some v)
        = (t, [LogEntry.error "Column not found."])) := by
  constructor
  · intro h
    simp [filter_data, h]
  · intro h
    simp [filter_data, h]

/-- Witness for C1 at a concrete table: an existing column keeps only the
matching rows, a non-existent column leaves the table unchanged. -/
theorem filter_exact_match_or_error_witness :
    filter_data (Table.mk ["a", "b"] [[some "1", some "x"], [some "2", some "y"],
        [some "1", none], [none, some "1"]]) (some "a") (some "1")
      = (Table.mk ["a", "b"] [[some "1", some "x"], [some "1", none]],
         [LogEntry.info "Data filtered on a = 1."]) ∧
    filter_data (Table.mk ["a"] [[some "1"]]) (some "zz") (some "1")
      = (Table.mk ["a"] [[some "1"]], [LogEntry.error "Column not found."]) := by
  constructor
  · have h := (filter_exact_match_or_error
      (Table.mk ["a", "b"] [[some "1", some "x"], [some "2", some "y"],
        [some "1", none], [none, some "1"]]) "a" "1").1 (by decide)
    rw [h]
    decide
  · exact (filter_exact_match_or_error
      (Table.mk ["a"] [[some "1"]]) "zz" "1").2 (by decide)

/-- C9: on an existing column the filtered rows form a sublist of the
original rows: the surviving rows keep their relative order and no row is
duplicated or introduced. -/
theorem filter_rows_sublist (t : Table) (c v : String) (hc : c ∈ t.cols) :
    ((filter_data t (some c) (some v)).1.rows).Sublist t.rows := by
  simp only [filter_data, hc, if_pos]
  exact List.filter_sublist _

/-- Witness for C9 at a concrete table. -/
theorem filter_rows_sublist_witness :
    ((filter_data (Table.mk ["a"] [[some "1"], [some "2"], [some "1"]])
        (some "a") (some "1")).1.rows).Sublist
      (Table.mk ["a"] [[some "1"], [some "2"], [some "1"]]).rows :=
  filter_rows_sublist (Table.mk ["a"] [[some "1"], [some "2"], [some "1"]])
    "a" "1" (by decide)

/-- The nested plot loop never changes the table: every branch only
displays a chart. -/
theorem user_plot_selection_eq_self (t : Table) (ks : List (Option String)) :
    user_plot_selection t ks = t := by
  induction ks generalizing t with
  | nil => rfl
  | cons k rest ih =>
      unfold user_plot_selection plot_simple plot_pairplot plot_histogram plot_heatmap
      split_ifs <;> first | rfl | exact ih t

/-- C6: an action token unrecognised at the outer prompt changes nothing
and does not break the loop, and a chart-kind token unrecognised at the
plot prompt is skipped, the loop continuing on the same table, which the
plot loop never changes. -/
theorem unrecognized_token_is_noop (t : Table) (s : StepIn) (k : Option String)
    (ks : List (Option String))
    (ha : s.action ∉ [some "info", some "summary", some "missing", some "filter",
      some "save", some "plot", some "exit"])
    (hk : k ∉ [some "simple", some "pairplot", some "histogram", some "heatmap",
      some "exit"]) :
    mainStep t s = (t, false, [LogEntry.warning "Please enter a valid action."]) ∧
    user_plot_selection t (k :: ks) = user_plot_selection t ks ∧
    user_plot_selection t ks = t := by
  simp only [List.mem_cons, List.not_mem_nil, or_false, not_or] at ha hk
  obtain ⟨h1, h2, h3, h4, h5, h6, h7⟩ := ha
  obtain ⟨k1, k2, k3, k4, k5⟩ := hk
  refine ⟨?_, ?_, user_plot_selection_eq_self t ks⟩
  · simp [mainStep, h1, h2, h3, h4, h5, h6, h7]
  · conv_lhs => unfold user_plot_selection
    simp [k1, k2, k3, k4, k5]

/-- Witness for C6 at a concrete table and concrete unrecognised tokens. -/
theorem unrecognized_token_is_noop_witness :
    mainStep (Table.mk ["a"] [[some "1"]])
        (StepIn.mk (some "bogus") none none none none [])
      = (Table.mk ["a"] [[some "1"]], false,
         [LogEntry.warning "Please enter a valid action."]) ∧
    user_plot_selection (Table.mk ["a"] [[some "1"]]) [some "zz", some "exit"]
      = user_plot_selection (Table.mk ["a"] [[some "1"]]) [some "exit"] ∧
    user_plot_selection (Table.mk ["a"] [[some "1"]]) [some "exit"]
      = Table.mk ["a"] [[some "1"]] :=
  unrecognized_token_is_noop (Table.mk ["a"] [[some "1"]])
    (StepIn.mk (some "bogus") none none none none [])
    (some "zz") [some "exit"] (by decide) (by decide)

/-- C7 counterexample: the token `cancel` is neither `drop` nor `fill`,
leaves the table unchanged, but issues no warning — its branch only logs
an info line — so the claim that every other input warns is false. -/
theorem missing_cancel_counterexample :
    (some "cancel" ≠ (some "drop" : Option String)) ∧
    (some "cancel" ≠ (some "fill" : Option String)) ∧
    (handle_missing_data (Table.mk ["a"] [[none]]) (some "cancel") none).1
      = Table.mk ["a"] [[none]] ∧
    ((handle_missing_data (Table.mk ["a"] [[none]]) (some "cancel") none).2.any
      LogEntry.isWarning) = false := by
  decide

/-- C7 amended: any input other than `drop`, `fill` and `cancel` is a
no-op with a warning; `cancel` is a no-op that only logs the
cancellation, without a warning. -/
theorem missing_invalid_noop_warns (t : Table) (a fv : Option String)
    (h : a ∉ [some "drop", some "fill", some "cancel"]) :
    handle_missing_data t a fv
      = (t, [LogEntry.warning "Invalid input for missing data handling."]) ∧
    handle_missing_data t (some "cancel") fv
      = (t, [LogEntry.info "Missing data handling canceled."]) := by
  simp only [List.mem_cons, List.not_mem_nil, or_false, not_or] at h
  obtain ⟨h1, h2, h3⟩ := h
  constructor
  · simp [handle_missing_data, h1, h2, h3]
  · rfl

/-- Witness for the amended C7 at a concrete table and token. -/
theorem missing_invalid_noop_warns_witness :
    handle_missing_data (Table.mk ["a"] [[none]]) (some "bogus") none
      = (Table.mk ["a"] [[none]],
         [LogEntry.warning "Invalid input for missing data handling."]) ∧
    handle_missing_data (Table.mk ["a"] [[none]]) (some "cancel") none
      = (Table.mk ["a"] [[none]],
         [LogEntry.info "Missing data handling canceled."]) :=
  missing_invalid_noop_warns (Table.mk ["a"] [[none]]) (some "bogus") none
    (by decide)

/-- C8: when the file dialog yields nothing or the load fails, `main`
ends with no table and zero iterations of the session loop. -/
theorem no_table_no_loop (choice : Option (List (List String)))
    (inputs : List StepIn) (h : load_csv_dialog choice = none) :
    main choice inputs = (none, 0) := by
  simp [main, h]

/-- Witness for C8: no file selected, and an empty file whose parse
fails, both end with no table and zero iterations. -/
theorem no_table_no_loop_witness :
    main none [StepIn.mk (some "exit") none none none none []] = (none, 0) ∧
    main (some []) [] = (none, 0) :=
  ⟨no_table_no_loop none [StepIn.mk (some "exit") none none none none []] rfl,
   no_table_no_loop (some []) [] rfl⟩

/-- C10: a cancelled outer action dialog (`none`) behaves exactly like an
unrecognised token — warning, table unchanged, loop continues — and an
iteration breaks the loop exactly when the token is `exit`. -/
theorem cancelled_action_like_invalid (t : Table) (s : StepIn) :
    (s.action = none →
      mainStep t s
        = (t, false, [LogEntry.warning "Please enter a valid action."])) ∧
    ((mainStep t s).2.1 = true ↔ s.action = some "exit") := by
  constructor
  · intro h
    simp [mainStep, h]
  · unfold mainStep
    split_ifs with h1 h2 h3 h4 h5 h6 h7 <;> simp [*]

/-- Witness for C10 at a concrete table with a cancelled action dialog. -/
theorem cancelled_action_like_invalid_witness :
    mainStep (Table.mk ["a"] [[some "1"]])
        (StepIn.mk none none none none none [])
      = (Table.mk ["a"] [[some "1"]], false,
         [LogEntry.warning "Please enter a valid action."]) ∧
    ((mainStep (Table.mk ["a"] [[some "1"]])
        (StepIn.mk none none none none none [])).2.1 = true ↔
      (StepIn.mk none none none none none
        ([] : List (Option String))).action = some "exit") :=
  ⟨(cancelled_action_like_invalid (Table.mk ["a"] [[some "1"]])
      (StepIn.mk none none none none none [])).1 rfl,
   (cancelled_action_like_invalid (Table.mk ["a"] [[some "1"]])
      (StepIn.mk none none none none none [])).2⟩

/-- C5 counterexample: a cell holding the empty string is written as an
empty field and read back as the missing marker, so the round trip does
not return the same cell values for every table. -/
theorem save_load_roundtrip_counterexample :
    load_csv (save_csv (Table.mk ["a"] [[some ""]]))
      ≠ some (Table.mk ["a"] [[some ""]]) := by
  decide

/-- One row survives writing (missing as empty field) then reading
(missing-value tokens as missing) when every cell is round-trip safe. -/
theorem roundtrip_row (r : List Cell) (h : r.all cellSafe = true) :
    (r.map (fun c => c.getD "")).map
      (fun s => if s ∈ naValues then none else some s) = r := by
  induction r with
  | nil => rfl
  | cons c cs ih =>
      simp only [List.all_cons, Bool.and_eq_true] at h
      simp only [List.map_cons, ih h.2, List.cons.injEq, and_true]
      cases c with
      | none =>
          rw [Option.getD_none, if_pos (by decide)]
      | some s =>
          have hs : s ∉ naValues := of_decide_eq_true h.1
          rw [Option.getD_some, if_neg hs]

/-- C5 amended: if no cell value equals a missing-value token of the
reader, saving and reloading returns exactly the same table — same
column list, same rows, same cell values (types abstracted as text). -/
theorem save_load_roundtrip (t : Table)
    (h : t.rows.all (fun r => r.all cellSafe) = true) :
    load_csv (save_csv t) = some t := by
  obtain ⟨cols, rows⟩ := t
  simp only [save_csv, load_csv, Option.some.injEq, Table.mk.injEq, true_and]
  induction rows with
  | nil => rfl
  | cons r rest ih =>
      simp only [List.all_cons, Bool.and_eq_true] at h
      simp only [List.map_cons, List.cons.injEq]
      exact ⟨roundtrip_row r h.1, ih h.2⟩

/-- Witness for the amended C5 at a concrete table with missing and
ordinary cells. -/
theorem save_load_roundtrip_witness :
    load_csv (save_csv (Table.mk ["a", "b"]
        [[some "1", none], [some "x", some "2"]]))
      = some (Table.mk ["a", "b"] [[some "1", none], [some "x", some "2"]]) :=
  save_load_roundtrip
    (Table.mk ["a", "b"] [[some "1", none], [some "x", some "2"]]) (by decide)

end CsFile
